import Mathlib

/-!
Shallow embedding of the Japanese administrative boundary crosswalk pipeline
implemented in direct_run.py: loading and renaming of boundary layers,
reference-system normalization, spatial-index-pruned polygon intersection,
area-based weight calculation, threshold filtering and persistence.

The external geometry library is modelled by a structure of operations
(GeomOps), so every theorem about the pipeline quantifies over the possible
behaviours of the library; a concrete grid-cell instance (cellOps) makes the
pipeline executable on small inputs.  Machine floats are modelled by exact
rationals, with the float-specific behaviour (NaN/Inf from dividing by a
missing or zero area) made explicit where the code checks for it.
-/

set_option allowUnsafeReducibility true in
attribute [semireducible] Rat.mul Rat.inv Rat.add Rat.sub

namespace Crosswalk

/-- Interface to the external geometry library.  bboxOverlap models the
bounding-box spatial index query (a target geometry is a candidate for a
source geometry exactly when their bounding boxes overlap), the other fields
model the shapely operations used by the code, and reproject models to_crs. -/
structure GeomOps (G : Type) where
  bboxOverlap : G → G → Bool
  intersects : G → G → Bool
  intersection : G → G → G
  isEmpty : G → Bool
  area : G → ℚ
  reproject : G → String → G

/-- One row of a loaded boundary layer after the loader has renamed the
identifying columns with the vintage year: prefecture identifier, city
identifier, optional sub-prefecture (gun) identifier, optional external
administrative code (column N03_007), and the polygon geometry. -/
structure Region (G : Type) where
  pref : String
  city : String
  gun : Option String
  code : Option String
  geometry : G
  deriving DecidableEq

/-- The negligible-area floor 1e-10 of calculate_intersections. -/
def negligibleAreaFloor : ℚ := 1 / 10000000000

/-- A record emitted by the overlay engine for one surviving pair: both
regions qualified identifiers (missing gun or code fields default to the
empty string, as with getattr defaults in the code), the intersection area
and the intersection geometry. -/
structure IntersectionRecord (G : Type) where
  srcPref : String
  srcCity : String
  srcGun : String
  srcCode : String
  tgtPref : String
  tgtCity : String
  tgtGun : String
  tgtCode : String
  interArea : ℚ
  geometry : G
  deriving DecidableEq

/-- The record built at the bottom of the pair loop of
calculate_intersections. -/
def mkRecord (ops : GeomOps G) (s t : Region G) (inter : G) : IntersectionRecord G :=
  { srcPref := s.pref
    srcCity := s.city
    srcGun := s.gun.getD ""
    srcCode := s.code.getD ""
    tgtPref := t.pref
    tgtCity := t.city
    tgtGun := t.gun.getD ""
    tgtCode := t.code.getD ""
    interArea := ops.area inter
    geometry := inter }

/-- The body of the inner loop of calculate_intersections for one
(source, candidate target) pair: exact intersects test, then the empty
check, then the negligible-area floor, then record creation. -/
def processPair (ops : GeomOps G) (s t : Region G) : Option (IntersectionRecord G) :=
  if ops.intersects s.geometry t.geometry then
    let inter := ops.intersection s.geometry t.geometry
    if ops.isEmpty inter then none
    else if ops.area inter ≤ negligibleAreaFloor then none
    else some (mkRecord ops s t inter)
  else none

/-- The candidate set returned by the bounding-box spatial index for one
source region: the target regions whose bounding box overlaps the bounding
box of the source geometry. -/
def candidateTargets (ops : GeomOps G) (target : List (Region G)) (s : Region G) :
    List (Region G) :=
  target.filter (fun t => ops.bboxOverlap s.geometry t.geometry)

/-- calculate_intersections of direct_run.py: for every source region, query
the spatial index for candidates, then run the exact pair test on each. -/
def calculate_intersections (ops : GeomOps G) (source target : List (Region G)) :
    List (IntersectionRecord G) :=
  source.flatMap (fun s => (candidateTargets ops target s).filterMap (processPair ops s))

/-- The area-lookup dictionary of calculate_weights, built by iterating the
layer rows in order and assigning d[row.city] = row.geometry.area, so a
later row with the same city identifier overwrites an earlier one
(last-write-wins). -/
def areaLookup (ops : GeomOps G) : List (Region G) → String → Option ℚ
  | [], _ => none
  | r :: rest, k =>
    match areaLookup ops rest k with
    | some a => some a
    | none => if k = r.city then some (ops.area r.geometry) else none

/-- The weight of one record after the non-finite repair of
calculate_weights: dividing by a missing area gives NaN and dividing by
zero gives Inf or NaN, and the code replaces every non-finite weight with 0,
so the repaired weight is 0 in exactly those two cases and
interArea / targetArea otherwise. -/
def recordWeight (interArea : ℚ) (targetArea : Option ℚ) : ℚ :=
  match targetArea with
  | none => 0
  | some a => if a = 0 then 0 else interArea / a

/-- Whether the float division interArea / targetArea is non-finite
(NaN or Inf): exactly when the looked-up target area is missing or zero.
This is the predicate behind the invalid-weight warning of
calculate_weights. -/
def weightNonFinite (targetArea : Option ℚ) : Bool :=
  match targetArea with
  | none => true
  | some a => a == 0

/-- One final crosswalk row: the identifying columns of both vintages plus
the weight; geometry and the intermediate area columns are gone. -/
structure CrosswalkRow where
  srcPref : String
  srcCity : String
  srcGun : String
  srcCode : String
  tgtPref : String
  tgtCity : String
  tgtGun : String
  tgtCode : String
  weight : ℚ
  deriving DecidableEq, Inhabited

/-- An intersection record carrying the source_area, target_area and weight
columns that calculate_weights appends before dropping them. -/
structure WeightedRecord (G : Type) where
  record : IntersectionRecord G
  source_area : Option ℚ
  target_area : Option ℚ
  weight : ℚ
  deriving DecidableEq

/-- The column-appending part of calculate_weights for one record: map the
source and target city identifiers through the two area dictionaries and
compute the (repaired) weight. -/
def attachAreas (ops : GeomOps G) (source target : List (Region G))
    (r : IntersectionRecord G) : WeightedRecord G :=
  { record := r
    source_area := areaLookup ops source r.srcCity
    target_area := areaLookup ops target r.tgtCity
    weight := recordWeight r.interArea (areaLookup ops target r.tgtCity) }

/-- Dropping the geometry, intersection_area, source_area and target_area
columns at the end of calculate_weights. -/
def dropWorkingColumns (w : WeightedRecord G) : CrosswalkRow :=
  { srcPref := w.record.srcPref
    srcCity := w.record.srcCity
    srcGun := w.record.srcGun
    srcCode := w.record.srcCode
    tgtPref := w.record.tgtPref
    tgtCity := w.record.tgtCity
    tgtGun := w.record.tgtGun
    tgtCode := w.record.tgtCode
    weight := w.weight }

/-- calculate_weights of direct_run.py: attach areas and weight to every
record, repair non-finite weights to 0, drop the working columns.  No row
is dropped at this stage. -/
def calculate_weights (ops : GeomOps G) (recs : List (IntersectionRecord G))
    (source target : List (Region G)) : List CrosswalkRow :=
  recs.map (fun r => dropWorkingColumns (attachAreas ops source target r))

/-- The count reported by the invalid-weight warning of calculate_weights:
the number of records whose float weight comes out non-finite. -/
def invalidWeightCount (ops : GeomOps G) (recs : List (IntersectionRecord G))
    (target : List (Region G)) : ℕ :=
  recs.countP (fun r => weightNonFinite (areaLookup ops target r.tgtCity))

/-- The default weight_threshold parameter value 0.001. -/
def defaultWeightThreshold : ℚ := 1 / 1000

/-- The threshold filter of create_crosswalk: keep exactly the rows whose
weight is strictly greater than the threshold. -/
def filterByThreshold (rows : List CrosswalkRow) (t : ℚ) : List CrosswalkRow :=
  rows.filter (fun row => t < row.weight)

/-- A loaded boundary layer: its spatial reference system and its regions. -/
structure BoundaryLayer (G : Type) where
  crs : String
  regions : List (Region G)
  deriving DecidableEq

/-- to_crs on a whole layer: reproject every geometry and record the new
reference system. -/
def to_crs (ops : GeomOps G) (layer : BoundaryLayer G) (c : String) : BoundaryLayer G :=
  { crs := c
    regions := layer.regions.map (fun r => { r with geometry := ops.reproject r.geometry c }) }

/-- The reference-system normalization step of create_crosswalk: if the two
systems match, both layers pass through unchanged, otherwise the target
layer is reprojected into the system of the source layer (the source layer
is never reprojected). -/
def normalizeCrs (ops : GeomOps G) (s t : BoundaryLayer G) :
    BoundaryLayer G × BoundaryLayer G :=
  if s.crs = t.crs then (s, t) else (s, to_crs ops t s.crs)

/-- The outcome of one create_crosswalk run: the returned table, and what
was handed to save_crosswalk for persistence (none when save_crosswalk was
never called). -/
structure RunResult where
  rows : List CrosswalkRow
  saved : Option (List CrosswalkRow)
  deriving DecidableEq

/-- create_crosswalk of direct_run.py: normalize reference systems, overlay,
and if no intersections were found return an empty table without weighting,
filtering or saving; otherwise weight, filter by the threshold, save the
filtered table and return it. -/
def create_crosswalk (ops : GeomOps G) (sourceLayer targetLayer : BoundaryLayer G)
    (weightThreshold : ℚ) : RunResult :=
  let norm := normalizeCrs ops sourceLayer targetLayer
  let recs := calculate_intersections ops norm.1.regions norm.2.regions
  if recs.isEmpty then { rows := [], saved := none }
  else
    let cw := calculate_weights ops recs norm.1.regions norm.2.regions
    let filtered := filterByThreshold cw weightThreshold
    { rows := filtered, saved := some filtered }

/-- Running the whole pipeline twice on the same inputs, for the
determinism property: the embedding is a pure function of its inputs, as
the code neither mutates its input layers nor consults any other state. -/
def runPipelineTwice (ops : GeomOps G) (s t : BoundaryLayer G) (thr : ℚ) :
    RunResult × RunResult :=
  (create_crosswalk ops s t thr, create_crosswalk ops s t thr)

/-- Interface to the geometry library in which every operation may raise an
exception, modelled as an Except value carrying the exception message.  The
overlay loop of calculate_intersections runs inside one try block with no
per-pair handler, so the first raised exception aborts the whole overlay. -/
structure GeomOpsE (G : Type) where
  bboxOverlap : G → G → Except String Bool
  intersects : G → G → Except String Bool
  intersection : G → G → Except String G
  isEmpty : G → Except String Bool
  area : G → Except String ℚ

/-- The error with which a failed overlay surfaces to the caller, wrapping
the message of the geometry-library exception that caused it. -/
inductive OverlayError where
  | wrap (cause : String)
  deriving DecidableEq

/-- The pair body of calculate_intersections over the fallible geometry
library. -/
def processPairE (ops : GeomOpsE G) (s t : Region G) :
    Except String (Option (IntersectionRecord G)) := do
  let hit ← ops.intersects s.geometry t.geometry
  if hit then
    let inter ← ops.intersection s.geometry t.geometry
    let emp ← ops.isEmpty inter
    if emp then
      return none
    else
      let a ← ops.area inter
      if a ≤ negligibleAreaFloor then
        return none
      else
        return some
          { srcPref := s.pref
            srcCity := s.city
            srcGun := s.gun.getD ""
            srcCode := s.code.getD ""
            tgtPref := t.pref
            tgtCity := t.city
            tgtGun := t.gun.getD ""
            tgtCode := t.code.getD ""
            interArea := a
            geometry := inter }
  else
    return none

/-- The body of the try block of calculate_intersections over the fallible
geometry library: index query, candidate filtering and pair processing, all
aborted by the first exception. -/
def overlayBody (ops : GeomOpsE G) (source target : List (Region G)) :
    Except String (List (IntersectionRecord G)) := do
  let groups ← source.mapM (fun s => do
    let cands ← target.filterM (fun t => ops.bboxOverlap s.geometry t.geometry)
    let opts ← cands.mapM (processPairE ops s)
    return opts.filterMap id)
  return groups.flatten

/-- calculate_intersections over the fallible geometry library: a raised
exception escapes the try block and surfaces as an overlay failure wrapping
the cause, with no partial result; a successful run with zero intersections
is the benign empty result. -/
def calculate_intersectionsE (ops : GeomOpsE G) (source target : List (Region G)) :
    Except OverlayError (List (IntersectionRecord G)) :=
  match overlayBody ops source target with
  | Except.ok recs => Except.ok recs
  | Except.error e => Except.error (OverlayError.wrap e)

/-- The column schema of a shapefile table as read from disk, before the
loader renames the identifying columns. -/
structure RawTable where
  columns : List String
  deriving DecidableEq

/-- The fatal errors of load_shapefiles: a missing input file (carrying the
attempted path) or a required identifying column absent from the source or
target table (carrying the column and which table). -/
inductive LoadError where
  | notFound (path : String)
  | schemaError (col : String) (layer : String)
  deriving DecidableEq

/-- The column renaming of load_shapefiles: PREF, CITY and GUN get the
vintage year appended; every other column is untouched.  The rename map has
no effect on an absent GUN column. -/
def renameColumns (cols : List String) (year : Nat) : List String :=
  cols.map (fun c =>
    if c = "PREF" then "PREF" ++ toString year
    else if c = "CITY" then "CITY" ++ toString year
    else if c = "GUN" then "GUN" ++ toString year
    else c)

/-- load_shapefiles of direct_run.py, at the schema level: the filesystem is
a map from paths to tables; a missing file fails with notFound naming the
attempted path, then PREF and CITY are required in both tables (checked in
the order PREF-source, PREF-target, CITY-source, CITY-target), and on
success both schemas are returned with the vintage-year renaming applied. -/
def load_shapefiles (fs : String → Option RawTable) (sourcePath targetPath : String)
    (sourceYear targetYear : Nat) : Except LoadError (RawTable × RawTable) :=
  match fs sourcePath with
  | none => Except.error (LoadError.notFound sourcePath)
  | some src =>
    match fs targetPath with
    | none => Except.error (LoadError.notFound targetPath)
    | some tgt =>
      if "PREF" ∉ src.columns then Except.error (LoadError.schemaError "PREF" "source")
      else if "PREF" ∉ tgt.columns then Except.error (LoadError.schemaError "PREF" "target")
      else if "CITY" ∉ src.columns then Except.error (LoadError.schemaError "CITY" "source")
      else if "CITY" ∉ tgt.columns then Except.error (LoadError.schemaError "CITY" "target")
      else Except.ok ({ columns := renameColumns src.columns sourceYear },
                      { columns := renameColumns tgt.columns targetYear })

/-- A concrete geometry model for running the pipeline on small inputs: a
region is a finite union of unit grid cells, listed without duplicates. -/
abbrev Cells := List (ℤ × ℤ)

/-- Set intersection of two cell lists. -/
def cellInter (a b : Cells) : Cells :=
  a.filter (fun c => decide (c ∈ b))

/-- Area of a cell geometry: the number of distinct cells, each of area 1. -/
def cellArea (g : Cells) : ℚ :=
  (g.dedup.length : ℚ)

/-- The least coordinate of a nonempty cell list along a projection. -/
def lowerBoundAlong (f : ℤ × ℤ → ℤ) : Cells → Option ℤ
  | [] => none
  | c :: rest => some (rest.foldl (fun m d => min m (f d)) (f c))

/-- The greatest coordinate of a nonempty cell list along a projection. -/
def upperBoundAlong (f : ℤ × ℤ → ℤ) : Cells → Option ℤ
  | [] => none
  | c :: rest => some (rest.foldl (fun m d => max m (f d)) (f c))

/-- Bounding-box overlap of two cell geometries, the index query of the
concrete model: cell (x, y) covers the unit square from (x, y) to
(x + 1, y + 1), and two axis-aligned boxes overlap when the intervals meet
on both axes.  An empty geometry has no bounding box and is never a
candidate. -/
def cellBBoxOverlap (a b : Cells) : Bool :=
  match lowerBoundAlong Prod.fst a, upperBoundAlong Prod.fst a,
        lowerBoundAlong Prod.snd a, upperBoundAlong Prod.snd a,
        lowerBoundAlong Prod.fst b, upperBoundAlong Prod.fst b,
        lowerBoundAlong Prod.snd b, upperBoundAlong Prod.snd b with
  | some ax1, some ax2, some ay1, some ay2,
    some bx1, some bx2, some by1, some by2 =>
      decide (ax1 ≤ bx2 + 1) && decide (bx1 ≤ ax2 + 1) &&
      decide (ay1 ≤ by2 + 1) && decide (by1 ≤ ay2 + 1)
  | _, _, _, _, _, _, _, _ => false

/-- The grid-cell instance of the geometry interface. -/
def cellOps : GeomOps Cells where
  bboxOverlap := cellBBoxOverlap
  intersects := fun a b => !(cellInter a b).isEmpty
  intersection := cellInter
  isEmpty := fun g => g.isEmpty
  area := cellArea
  reproject := fun g _ => g

/-- A 2 by 2 square of cells with corner at the origin, area 4. -/
def gridBig : Cells := [(0, 0), (0, 1), (1, 0), (1, 1)]

/-- A single distant cell, area 1, disjoint from gridBig. -/
def gridFar : Cells := [(10, 10)]

/-- Source region for the duplicate-city scenario. -/
def regionS : Region Cells :=
  { pref := "13", city := "S1", gun := none, code := some "13101", geometry := gridBig }

/-- First target region named X: the same square as the source region. -/
def regionT1 : Region Cells :=
  { pref := "13", city := "X", gun := none, code := some "13201", geometry := gridBig }

/-- Second target region also named X (the same city identifier can occur
in two prefectures): a distant single cell, so the last-write-wins area
dictionary maps X to area 1. -/
def regionT2 : Region Cells :=
  { pref := "34", city := "X", gun := none, code := some "34202", geometry := gridFar }

/-- Source layer of the duplicate-city scenario. -/
def dupLayerS : BoundaryLayer Cells := { crs := "EPSG:4326", regions := [regionS] }

/-- Target layer of the duplicate-city scenario: two regions sharing the
city identifier X. -/
def dupLayerT : BoundaryLayer Cells := { crs := "EPSG:4326", regions := [regionT1, regionT2] }

/-- Source region of the clean scenario: city A over the square. -/
def regionA : Region Cells :=
  { pref := "01", city := "A", gun := some "G1", code := some "01101", geometry := gridBig }

/-- Target region of the clean scenario: city B over the same square. -/
def regionB : Region Cells :=
  { pref := "01", city := "B", gun := none, code := some "01202", geometry := gridBig }

/-- Clean source layer: one region, unique city identifiers. -/
def cleanLayerS : BoundaryLayer Cells := { crs := "EPSG:4326", regions := [regionA] }

/-- Clean target layer: one region, unique city identifiers. -/
def cleanLayerT : BoundaryLayer Cells := { crs := "EPSG:4326", regions := [regionB] }

/-- A target layer far away from every clean source region, for the
zero-intersection scenario. -/
def farLayerT : BoundaryLayer Cells :=
  { crs := "EPSG:4326"
    regions := [{ pref := "47", city := "F", gun := none, code := none, geometry := [(50, 50)] }] }

/-- Decidable form of the geometric side condition for the upper weight
bound: the looked-up target area of a record, when present, is non-negative
and at least the intersection area of the record. -/
def targetAreaDominates (ops : GeomOps G) (tregions : List (Region G))
    (r : IntersectionRecord G) : Bool :=
  match areaLookup ops tregions r.tgtCity with
  | none => true
  | some a => decide (0 ≤ a) && decide (r.interArea ≤ a)

/-- A crosswalk row with weight 0.0005, below the default threshold. -/
def rowLow : CrosswalkRow :=
  { srcPref := "01", srcCity := "A", srcGun := "", srcCode := ""
    tgtPref := "01", tgtCity := "B", tgtGun := "", tgtCode := "", weight := 5 / 10000 }

/-- A crosswalk row with weight 0.002, above the default threshold. -/
def rowMid : CrosswalkRow :=
  { srcPref := "01", srcCity := "A", srcGun := "", srcCode := ""
    tgtPref := "01", tgtCity := "C", tgtGun := "", tgtCode := "", weight := 2 / 1000 }

/-- A crosswalk row with weight exactly 0.001, equal to the default
threshold. -/
def rowEq : CrosswalkRow :=
  { srcPref := "01", srcCity := "A", srcGun := "", srcCode := ""
    tgtPref := "01", tgtCity := "D", tgtGun := "", tgtCode := "", weight := 1 / 1000 }

/-- A target region whose city identifier does not occur in the clean
target layer, for the missing-area-lookup scenario. -/
def ghostRegion : Region Cells :=
  { pref := "99", city := "ghost", gun := none, code := none, geometry := gridBig }

/-- An intersection record whose target city identifier is absent from the
clean target layer. -/
def ghostRecord : IntersectionRecord Cells :=
  mkRecord cellOps regionA ghostRegion gridBig

/-- A three-geometry library in which geometries 0 and 1 are polygons
sharing only a boundary edge: the library reports them as intersecting and
their intersection (geometry 2, the shared edge) is non-empty with area 0,
as shapely reports a shared-edge LineString. -/
def edgeOps : GeomOps Nat where
  bboxOverlap := fun _ _ => true
  intersects := fun a b => decide (a = 0 ∧ b = 1)
  intersection := fun _ _ => 2
  isEmpty := fun _ => false
  area := fun g => if g = 2 then 0 else 1
  reproject := fun g _ => g

/-- Source region of the shared-edge scenario. -/
def edgeRegionS : Region Nat :=
  { pref := "01", city := "E1", gun := none, code := none, geometry := 0 }

/-- Target region of the shared-edge scenario. -/
def edgeRegionT : Region Nat :=
  { pref := "01", city := "E2", gun := none, code := none, geometry := 1 }

/-- A region over the trivial geometry type, for the fallible-library
scenarios. -/
def unitRegion : Region Unit :=
  { pref := "01", city := "U", gun := none, code := none, geometry := () }

/-- A fallible geometry library whose exact intersects test raises. -/
def raisingOps : GeomOpsE Unit where
  bboxOverlap := fun _ _ => Except.ok true
  intersects := fun _ _ => Except.error "GEOSException in pair processing"
  intersection := fun _ _ => Except.ok ()
  isEmpty := fun _ => Except.ok false
  area := fun _ => Except.ok 1

/-- A fallible geometry library that succeeds everywhere and never reports
an intersection. -/
def disjointOps : GeomOpsE Unit where
  bboxOverlap := fun _ _ => Except.ok true
  intersects := fun _ _ => Except.ok false
  intersection := fun _ _ => Except.ok ()
  isEmpty := fun _ => Except.ok true
  area := fun _ => Except.ok 0

/-- The clean target layer carried in a different reference system, for the
normalization scenario. -/
def mercatorLayerT : BoundaryLayer Cells :=
  { crs := "EPSG:3857", regions := cleanLayerT.regions }

/-- A two-file filesystem with the default-style shapefile paths: the 2000
table has no GUN column, the 1980 table has one. -/
def fsDemo : String → Option RawTable := fun p =>
  if p = "Data/jpn2000/jpn2000geo.shp" then some { columns := ["PREF", "CITY", "N03_007"] }
  else if p = "Data/jpn1980/jpn1980geo.shp" then some { columns := ["PREF", "CITY", "GUN"] }
  else none

/-- A two-file filesystem whose target table lacks the required CITY
column, for the target-side schema-error scenario. -/
def fsBadTarget : String → Option RawTable := fun p =>
  if p = "Data/jpn2000/jpn2000geo.shp" then some { columns := ["PREF", "CITY", "N03_007"] }
  else if p = "Data/jpn1980/jpn1980geo.shp" then some { columns := ["PREF", "GUN"] }
  else none

theorem areaLookup_not_mem (ops : GeomOps G) (regions : List (Region G)) (k : String)
    (h : ∀ r ∈ regions, r.city ≠ k) : areaLookup ops regions k = none := by
  induction regions with
  | nil => rfl
  | cons r rest ih =>
    have hr : r.city ≠ k := h r (List.mem_cons_self r rest)
    have hrest := ih (fun x hx => h x (List.mem_cons_of_mem _ hx))
    rw [areaLookup, hrest]
    exact if_neg (fun hk => hr hk.symm)

theorem areaLookup_nodup_mem (ops : GeomOps G) (regions : List (Region G))
    (tr : Region G) (htr : tr ∈ regions)
    (hnd : (regions.map Region.city).Nodup) :
    areaLookup ops regions tr.city = some (ops.area tr.geometry) := by
  induction regions with
  | nil => cases htr
  | cons r rest ih =>
    rw [List.map_cons, List.nodup_cons] at hnd
    rcases List.mem_cons.mp htr with h | h
    · subst h
      have hnone : areaLookup ops rest tr.city = none := by
        refine areaLookup_not_mem ops rest tr.city (fun x hx hEq => ?_)
        exact hnd.1 (hEq ▸ List.mem_map_of_mem Region.city hx)
      rw [areaLookup, hnone, if_pos rfl]
    · rw [areaLookup, ih h hnd.2]

/-- C1: the weight attached to every intersection record equals
intersection_area / target_area, where target_area comes from the lookup
keyed by the vintage-qualified city identifier over the full target layer
and, when city identifiers are unique, holds the original un-clipped area
of that city polygon (not the intersection area); source_area is looked up
the same way from the source layer. -/
theorem calculate_weights_uses_unclipped_target_area (ops : GeomOps G)
    (source target : List (Region G)) (recs : List (IntersectionRecord G)) :
    (∀ r : IntersectionRecord G, ∀ a : ℚ,
        areaLookup ops target r.tgtCity = some a → a ≠ 0 →
        (attachAreas ops source target r).weight = r.interArea / a) ∧
    (∀ r : IntersectionRecord G,
        (attachAreas ops source target r).source_area = areaLookup ops source r.srcCity ∧
        (attachAreas ops source target r).target_area = areaLookup ops target r.tgtCity) ∧
    ((target.map Region.city).Nodup → ∀ tr ∈ target,
        areaLookup ops target tr.city = some (ops.area tr.geometry)) ∧
    calculate_weights ops recs source target =
      recs.map (fun r => dropWorkingColumns (attachAreas ops source target r)) := by
  refine ⟨?_, fun r => ⟨rfl, rfl⟩, ?_, rfl⟩
  · intro r a ha hne
    simp [attachAreas, ha, recordWeight, hne]
  · intro hnd tr htr
    exact areaLookup_nodup_mem ops target tr htr hnd

theorem calculate_weights_uses_unclipped_target_area_witness :
    (attachAreas cellOps cleanLayerS.regions cleanLayerT.regions
        (mkRecord cellOps regionA regionB gridBig)).weight = 4 / 4 ∧
    areaLookup cellOps cleanLayerT.regions "B" = some 4 := by
  have h := calculate_weights_uses_unclipped_target_area cellOps
    cleanLayerS.regions cleanLayerT.regions []
  exact ⟨h.1 (mkRecord cellOps regionA regionB gridBig) 4 (by decide) (by decide), by decide⟩

/-- C2: the threshold filter retains exactly the rows whose weight is
strictly greater than the threshold; the default threshold is 0.001, a row
with weight 0.0005 is excluded at the default, a row with weight 0.002 is
included at the default, and a row whose weight equals the threshold is
excluded. -/
theorem filterByThreshold_strictly_above :
    (∀ (rows : List CrosswalkRow) (t : ℚ) (row : CrosswalkRow),
        row ∈ filterByThreshold rows t ↔ row ∈ rows ∧ t < row.weight) ∧
    defaultWeightThreshold = 1 / 1000 ∧
    (∀ (rows : List CrosswalkRow) (row : CrosswalkRow), row.weight = 5 / 10000 →
        row ∉ filterByThreshold rows defaultWeightThreshold) ∧
    (∀ (rows : List CrosswalkRow) (row : CrosswalkRow), row ∈ rows → row.weight = 2 / 1000 →
        row ∈ filterByThreshold rows defaultWeightThreshold) ∧
    (∀ (rows : List CrosswalkRow) (t : ℚ) (row : CrosswalkRow), row.weight = t →
        row ∉ filterByThreshold rows t) := by
  have hmem : ∀ (rows : List CrosswalkRow) (t : ℚ) (row : CrosswalkRow),
      row ∈ filterByThreshold rows t ↔ row ∈ rows ∧ t < row.weight := by
    intro rows t row
    simp [filterByThreshold, List.mem_filter]
  refine ⟨hmem, rfl, ?_, ?_, ?_⟩
  · intro rows row hw hin
    have hlt := ((hmem rows _ row).mp hin).2
    rw [hw, defaultWeightThreshold] at hlt
    norm_num at hlt
  · intro rows row hr hw
    refine (hmem rows _ row).mpr ⟨hr, ?_⟩
    rw [hw, defaultWeightThreshold]
    norm_num
  · intro rows t row hw hin
    have hlt := ((hmem rows t row).mp hin).2
    rw [hw] at hlt
    exact lt_irrefl t hlt

theorem filterByThreshold_strictly_above_witness :
    rowLow ∉ filterByThreshold [rowLow, rowMid, rowEq] defaultWeightThreshold ∧
    rowMid ∈ filterByThreshold [rowLow, rowMid, rowEq] defaultWeightThreshold ∧
    rowEq ∉ filterByThreshold [rowLow, rowMid, rowEq] defaultWeightThreshold := by
  refine ⟨filterByThreshold_strictly_above.2.2.1 _ rowLow (by decide),
    filterByThreshold_strictly_above.2.2.2.1 _ rowMid (by decide) (by decide),
    filterByThreshold_strictly_above.2.2.2.2 _ _ rowEq (by decide)⟩

/-- C3 counterexample: with a target city identifier shared by two polygons
(the city-keyed area dictionary keeps only the last one), the final emitted
crosswalk of a concrete run contains a single row whose weight is 4, so the
claimed bound weight ≤ 1 fails on the code. -/
theorem create_crosswalk_weight_above_one :
    (create_crosswalk cellOps dupLayerS dupLayerT defaultWeightThreshold).rows.map
      CrosswalkRow.weight = [4] ∧ ¬ ((4 : ℚ) ≤ 1) :=
  ⟨by decide, by decide⟩

/-- C3 amended: every row of the final emitted crosswalk under a
non-negative threshold has 0 < weight, and the weight is an exact rational
(the calculator replaces the non-finite float cases by 0, which the filter
then removes); the upper bound weight ≤ 1 additionally holds whenever every
overlay record has a looked-up target area that is non-negative and at
least the intersection area of the record, as with unique city identifiers
per layer and a geometry library whose intersection areas do not exceed the
area of the intersected polygon. -/
theorem create_crosswalk_weight_bounds (ops : GeomOps G)
    (sourceLayer targetLayer : BoundaryLayer G) (t : ℚ) (ht : 0 ≤ t) :
    (∀ row ∈ (create_crosswalk ops sourceLayer targetLayer t).rows, 0 < row.weight) ∧
    ((∀ r ∈ calculate_intersections ops (normalizeCrs ops sourceLayer targetLayer).1.regions
          (normalizeCrs ops sourceLayer targetLayer).2.regions,
        targetAreaDominates ops (normalizeCrs ops sourceLayer targetLayer).2.regions r = true) →
      ∀ row ∈ (create_crosswalk ops sourceLayer targetLayer t).rows, row.weight ≤ 1) := by
  set norm := normalizeCrs ops sourceLayer targetLayer with hnorm
  set recs := calculate_intersections ops norm.1.regions norm.2.regions with hrecs
  have hrows : ∀ row ∈ (create_crosswalk ops sourceLayer targetLayer t).rows,
      row ∈ filterByThreshold (calculate_weights ops recs norm.1.regions norm.2.regions) t := by
    intro row hrow
    by_cases h : recs.isEmpty
    · rw [create_crosswalk] at hrow
      rw [← hnorm, ← hrecs] at hrow
      simp [h] at hrow
    · rw [create_crosswalk] at hrow
      rw [← hnorm, ← hrecs] at hrow
      simpa [h] using hrow
  constructor
  · intro row hrow
    have hf := hrows row hrow
    have hlt := (List.mem_filter.mp hf).2
    have hlt2 : t < row.weight := by simpa using hlt
    exact lt_of_le_of_lt ht hlt2
  · intro hdom row hrow
    have hf := hrows row hrow
    have hcw := (List.mem_filter.mp hf).1
    rw [calculate_weights] at hcw
    rcases List.mem_map.mp hcw with ⟨r, hr, hrw⟩
    have hwt : row.weight = recordWeight r.interArea (areaLookup ops norm.2.regions r.tgtCity) := by
      rw [← hrw]
      rfl
    have hd := hdom r hr
    rw [targetAreaDominates] at hd
    rw [hwt]
    cases hlk : areaLookup ops norm.2.regions r.tgtCity with
    | none => simp [recordWeight]
    | some a =>
      rw [hlk] at hd
      simp only [Bool.and_eq_true, decide_eq_true_eq] at hd
      by_cases ha : a = 0
      · simp [recordWeight, ha]
      · have hapos : 0 < a := lt_of_le_of_ne hd.1 (fun hEq => ha hEq.symm)
        simp only [recordWeight, if_neg ha]
        exact (div_le_one hapos).mpr hd.2

theorem create_crosswalk_weight_bounds_witness :
    (0 : ℚ) <
      ((create_crosswalk cellOps cleanLayerS cleanLayerT defaultWeightThreshold).rows.headI).weight ∧
    ((create_crosswalk cellOps cleanLayerS cleanLayerT defaultWeightThreshold).rows.headI).weight
      ≤ 1 := by
  have h := create_crosswalk_weight_bounds cellOps cleanLayerS cleanLayerT
    defaultWeightThreshold (by decide)
  exact ⟨h.1 _ (by decide), h.2 (by decide) _ (by decide)⟩

/-- C4: the overlay emits no record for a pair whose exact intersects test
fails, whose intersection is geometrically empty, or whose intersection
area is at or below the 1e-10 floor (which is how a zero-area shared-edge
intersection is skipped); and every emitted record comes from a pair of a
source and a target region that intersect, with area strictly above the
floor. -/
theorem calculate_intersections_floor (ops : GeomOps G)
    (source target : List (Region G)) (s t : Region G) :
    (ops.intersects s.geometry t.geometry = false → processPair ops s t = none) ∧
    (ops.isEmpty (ops.intersection s.geometry t.geometry) = true →
        processPair ops s t = none) ∧
    (ops.area (ops.intersection s.geometry t.geometry) ≤ negligibleAreaFloor →
        processPair ops s t = none) ∧
    (∀ record ∈ calculate_intersections ops source target,
        negligibleAreaFloor < record.interArea ∧
        ∃ sr ∈ source, ∃ tr ∈ target,
          ops.intersects sr.geometry tr.geometry = true ∧
          processPair ops sr tr = some record) := by
  refine ⟨?_, ?_, ?_, ?_⟩
  · intro h
    simp [processPair, h]
  · intro h
    simp [processPair, h]
  · intro h
    simp [processPair, h]
  · intro record hrec
    rw [calculate_intersections] at hrec
    rcases List.mem_flatMap.mp hrec with ⟨sr, hsr, hin⟩
    rcases List.mem_filterMap.mp hin with ⟨tr, htr, hp⟩
    have htr2 : tr ∈ target := (List.mem_filter.mp htr).1
    simp only [processPair] at hp
    split at hp
    case isTrue hi =>
      split at hp
      case isTrue => cases hp
      case isFalse hemp =>
        split at hp
        case isTrue => cases hp
        case isFalse hle =>
          have harea : negligibleAreaFloor <
              ops.area (ops.intersection sr.geometry tr.geometry) := lt_of_not_le hle
          have hrec2 : record = mkRecord ops sr tr (ops.intersection sr.geometry tr.geometry) :=
            (Option.some_inj.mp hp).symm
          refine ⟨?_, sr, hsr, tr, htr2, hi, ?_⟩
          · rw [hrec2]
            exact harea
          · simp only [processPair]
            rw [if_pos hi, if_neg hemp, if_neg hle]
            exact hp
    case isFalse => cases hp

theorem calculate_intersections_floor_witness :
    edgeOps.intersects edgeRegionS.geometry edgeRegionT.geometry = true ∧
    edgeOps.isEmpty (edgeOps.intersection edgeRegionS.geometry edgeRegionT.geometry) = false ∧
    edgeOps.area (edgeOps.intersection edgeRegionS.geometry edgeRegionT.geometry) = 0 ∧
    processPair edgeOps edgeRegionS edgeRegionT = none := by
  refine ⟨by decide, by decide, by decide, ?_⟩
  exact (calculate_intersections_floor edgeOps [] [] edgeRegionS edgeRegionT).2.2.1 (by decide)

/-- C5: a record whose float weight would come out non-finite (the looked-up
target area is missing or zero) gets its weight replaced by 0, the
weighting stage drops no row, the diagnostic count equals the number of
such records, and a zero-weight row is excluded from the output by every
strictly positive threshold. -/
theorem calculate_weights_repairs_nonfinite (ops : GeomOps G)
    (source target : List (Region G)) (recs : List (IntersectionRecord G)) :
    (∀ r : IntersectionRecord G, weightNonFinite (areaLookup ops target r.tgtCity) = true →
        (attachAreas ops source target r).weight = 0) ∧
    (calculate_weights ops recs source target).length = recs.length ∧
    invalidWeightCount ops recs target =
      (recs.filter (fun r => weightNonFinite (areaLookup ops target r.tgtCity))).length ∧
    (∀ (rows : List CrosswalkRow) (t : ℚ) (row : CrosswalkRow), 0 < t → row.weight = 0 →
        row ∉ filterByThreshold rows t) := by
  refine ⟨?_, ?_, ?_, ?_⟩
  · intro r hnf
    rw [attachAreas]
    cases hlk : areaLookup ops target r.tgtCity with
    | none => simp [hlk, recordWeight]
    | some a =>
      rw [hlk] at hnf
      have ha : a = 0 := by simpa [weightNonFinite] using hnf
      simp [hlk, recordWeight, ha]
  · rw [calculate_weights, List.length_map]
  · rw [invalidWeightCount, List.countP_eq_length_filter]
  · intro rows t row ht hw hin
    have hlt := (List.mem_filter.mp hin).2
    rw [hw] at hlt
    have : t < 0 := by simpa using hlt
    exact absurd ht (not_lt.mpr (le_of_lt this))

theorem calculate_weights_repairs_nonfinite_witness :
    (attachAreas cellOps cleanLayerS.regions cleanLayerT.regions ghostRecord).weight = 0 ∧
    (calculate_weights cellOps [ghostRecord] cleanLayerS.regions cleanLayerT.regions).length = 1 ∧
    invalidWeightCount cellOps [ghostRecord] cleanLayerT.regions = 1 ∧
    dropWorkingColumns (attachAreas cellOps cleanLayerS.regions cleanLayerT.regions ghostRecord) ∉
      filterByThreshold
        (calculate_weights cellOps [ghostRecord] cleanLayerS.regions cleanLayerT.regions)
        defaultWeightThreshold := by
  have h := calculate_weights_repairs_nonfinite cellOps cleanLayerS.regions cleanLayerT.regions
    [ghostRecord]
  exact ⟨h.1 ghostRecord (by decide), by decide, by decide,
    h.2.2.2 _ defaultWeightThreshold _ (by decide) (by decide)⟩

/-- C6: a geometry-library exception raised while processing any pair makes
the whole overlay fail with an overlay error wrapping the cause — never a
partial result — while a run in which every library call succeeds but no
intersection is found returns the benign empty result. -/
theorem calculate_intersectionsE_error_or_empty (ops : GeomOpsE G)
    (source target : List (Region G)) :
    (∀ e : String, overlayBody ops source target = Except.error e →
        calculate_intersectionsE ops source target = Except.error (OverlayError.wrap e) ∧
        ∀ recs : List (IntersectionRecord G),
          calculate_intersectionsE ops source target ≠ Except.ok recs) ∧
    (overlayBody ops source target = Except.ok [] →
        calculate_intersectionsE ops source target = Except.ok []) := by
  constructor
  · intro e he
    constructor
    · rw [calculate_intersectionsE, he]
    · intro recs
      rw [calculate_intersectionsE, he]
      intro hcontra
      cases hcontra
  · intro h
    rw [calculate_intersectionsE, h]

theorem calculate_intersectionsE_error_or_empty_witness :
    calculate_intersectionsE raisingOps [unitRegion] [unitRegion] =
      Except.error (OverlayError.wrap "GEOSException in pair processing") ∧
    calculate_intersectionsE disjointOps [unitRegion] [unitRegion] = Except.ok [] := by
  have h1 := calculate_intersectionsE_error_or_empty raisingOps [unitRegion] [unitRegion]
  have h2 := calculate_intersectionsE_error_or_empty disjointOps [unitRegion] [unitRegion]
  exact ⟨(h1.1 "GEOSException in pair processing" rfl).1, h2.2 rfl⟩

/-- C7: when the two reference systems match the normalizer returns both
layers unchanged; otherwise it reprojects the target layer into the source
system, never touching the source layer; and in the mismatched case the
whole run result equals the result on layers pre-normalized to a common
system by the caller. -/
theorem normalizeCrs_reproject_target_only (ops : GeomOps G) (s t : BoundaryLayer G) :
    (s.crs = t.crs → normalizeCrs ops s t = (s, t)) ∧
    (s.crs ≠ t.crs → normalizeCrs ops s t = (s, to_crs ops t s.crs)) ∧
    (normalizeCrs ops s t).1 = s ∧
    (s.crs ≠ t.crs → ∀ thr : ℚ,
        create_crosswalk ops s t thr = create_crosswalk ops s (to_crs ops t s.crs) thr) := by
  refine ⟨?_, ?_, ?_, ?_⟩
  · intro h
    simp [normalizeCrs, h]
  · intro h
    simp [normalizeCrs, h]
  · by_cases h : s.crs = t.crs <;> simp [normalizeCrs, h]
  · intro h thr
    have key : normalizeCrs ops s t = normalizeCrs ops s (to_crs ops t s.crs) := by
      simp [normalizeCrs, h, to_crs]
    rw [create_crosswalk, create_crosswalk, key]

theorem normalizeCrs_reproject_target_only_witness :
    normalizeCrs cellOps cleanLayerS mercatorLayerT =
      (cleanLayerS, to_crs cellOps mercatorLayerT cleanLayerS.crs) ∧
    create_crosswalk cellOps cleanLayerS mercatorLayerT defaultWeightThreshold =
      create_crosswalk cellOps cleanLayerS (to_crs cellOps mercatorLayerT cleanLayerS.crs)
        defaultWeightThreshold := by
  have h := normalizeCrs_reproject_target_only cellOps cleanLayerS mercatorLayerT
  exact ⟨h.2.1 (by decide), h.2.2.2 (by decide) defaultWeightThreshold⟩

theorem append_ne_of_length_ne (a b s : String) (h : a.length ≠ b.length) :
    a ++ s ≠ b ++ s := by
  intro he
  have hlen := congrArg String.length he
  rw [String.length_append, String.length_append] at hlen
  omega

/-- C8: the loader fails with the not-found error naming the attempted path
when an input file is absent, fails with the schema error when the
prefecture or city column is absent from either loaded layer, succeeds
otherwise with the vintage-year renaming applied to both schemas, and the
absence of the optional GUN column does not fail loading — it only leaves
the renamed GUN column out while PREF and CITY are still renamed. -/
theorem load_shapefiles_spec (fs : String → Option RawTable) (sp tp : String)
    (sy ty : Nat) :
    (fs sp = none → load_shapefiles fs sp tp sy ty =
        Except.error (LoadError.notFound sp)) ∧
    (∀ src : RawTable, fs sp = some src → fs tp = none →
        load_shapefiles fs sp tp sy ty = Except.error (LoadError.notFound tp)) ∧
    (∀ src tgt : RawTable, fs sp = some src → fs tp = some tgt →
        "PREF" ∉ src.columns →
        load_shapefiles fs sp tp sy ty =
          Except.error (LoadError.schemaError "PREF" "source")) ∧
    (∀ src tgt : RawTable, fs sp = some src → fs tp = some tgt →
        "PREF" ∈ src.columns → "PREF" ∉ tgt.columns →
        load_shapefiles fs sp tp sy ty =
          Except.error (LoadError.schemaError "PREF" "target")) ∧
    (∀ src tgt : RawTable, fs sp = some src → fs tp = some tgt →
        "PREF" ∈ src.columns → "PREF" ∈ tgt.columns → "CITY" ∉ src.columns →
        load_shapefiles fs sp tp sy ty =
          Except.error (LoadError.schemaError "CITY" "source")) ∧
    (∀ src tgt : RawTable, fs sp = some src → fs tp = some tgt →
        "PREF" ∈ src.columns → "PREF" ∈ tgt.columns →
        "CITY" ∈ src.columns → "CITY" ∉ tgt.columns →
        load_shapefiles fs sp tp sy ty =
          Except.error (LoadError.schemaError "CITY" "target")) ∧
    (∀ src tgt : RawTable, fs sp = some src → fs tp = some tgt →
        "PREF" ∈ src.columns → "PREF" ∈ tgt.columns →
        "CITY" ∈ src.columns → "CITY" ∈ tgt.columns →
        load_shapefiles fs sp tp sy ty =
          Except.ok ({ columns := renameColumns src.columns sy },
                     { columns := renameColumns tgt.columns ty })) ∧
    (∀ (cols : List String) (y : Nat), "GUN" ∉ cols → ("GUN" ++ toString y) ∉ cols →
        ("GUN" ++ toString y) ∉ renameColumns cols y) ∧
    (∀ (cols : List String) (y : Nat), "PREF" ∈ cols →
        ("PREF" ++ toString y) ∈ renameColumns cols y) ∧
    (∀ (cols : List String) (y : Nat), "CITY" ∈ cols →
        ("CITY" ++ toString y) ∈ renameColumns cols y) := by
  refine ⟨?_, ?_, ?_, ?_, ?_, ?_, ?_, ?_, ?_, ?_⟩
  · intro h
    rw [load_shapefiles, h]
  · intro src hs ht
    rw [load_shapefiles, hs, ht]
  · intro src tgt hs ht hp
    rw [load_shapefiles, hs, ht]
    exact if_pos hp
  · intro src tgt hs ht hp hpt
    simp only [load_shapefiles, hs, ht]
    rw [if_neg (not_not_intro hp)]
    exact if_pos hpt
  · intro src tgt hs ht hp hpt hc
    simp only [load_shapefiles, hs, ht]
    rw [if_neg (not_not_intro hp), if_neg (not_not_intro hpt)]
    exact if_pos hc
  · intro src tgt hs ht hp hpt hc hct
    simp only [load_shapefiles, hs, ht]
    rw [if_neg (not_not_intro hp), if_neg (not_not_intro hpt), if_neg (not_not_intro hc)]
    exact if_pos hct
  · intro src tgt hs ht hp hpt hc hct
    simp only [load_shapefiles, hs, ht]
    rw [if_neg (not_not_intro hp), if_neg (not_not_intro hpt),
      if_neg (not_not_intro hc), if_neg (not_not_intro hct)]
  · intro cols y hg hgy hmem
    rw [renameColumns] at hmem
    rcases List.mem_map.mp hmem with ⟨c, hc, he⟩
    by_cases h1 : c = "PREF"
    · rw [if_pos h1] at he
      exact append_ne_of_length_ne "PREF" "GUN" (toString y) (by decide) he
    · rw [if_neg h1] at he
      by_cases h2 : c = "CITY"
      · rw [if_pos h2] at he
        exact append_ne_of_length_ne "CITY" "GUN" (toString y) (by decide) he
      · rw [if_neg h2] at he
        by_cases h3 : c = "GUN"
        · exact hg (h3 ▸ hc)
        · rw [if_neg h3] at he
          exact hgy (he ▸ hc)
  · intro cols y hp
    rw [renameColumns]
    refine List.mem_map.mpr ⟨"PREF", hp, ?_⟩
    rw [if_pos rfl]
  · intro cols y hc
    rw [renameColumns]
    refine List.mem_map.mpr ⟨"CITY", hc, ?_⟩
    by_cases h1 : ("CITY" : String) = "PREF"
    · exact absurd h1 (by decide)
    · rw [if_neg h1, if_pos rfl]

theorem load_shapefiles_spec_witness :
    load_shapefiles fsDemo "missing.shp" "Data/jpn1980/jpn1980geo.shp" 2000 1980 =
      Except.error (LoadError.notFound "missing.shp") ∧
    load_shapefiles fsBadTarget "Data/jpn2000/jpn2000geo.shp" "Data/jpn1980/jpn1980geo.shp"
        2000 1980 =
      Except.error (LoadError.schemaError "CITY" "target") ∧
    load_shapefiles fsDemo "Data/jpn2000/jpn2000geo.shp" "Data/jpn1980/jpn1980geo.shp"
        2000 1980 =
      Except.ok ({ columns := renameColumns ["PREF", "CITY", "N03_007"] 2000 },
                 { columns := renameColumns ["PREF", "CITY", "GUN"] 1980 }) ∧
    ("GUN" ++ toString 2000) ∉ renameColumns ["PREF", "CITY", "N03_007"] 2000 ∧
    ("PREF" ++ toString 2000) ∈ renameColumns ["PREF", "CITY", "N03_007"] 2000 := by
  have hmiss := load_shapefiles_spec fsDemo "missing.shp" "Data/jpn1980/jpn1980geo.shp" 2000 1980
  have hbad := load_shapefiles_spec fsBadTarget "Data/jpn2000/jpn2000geo.shp"
    "Data/jpn1980/jpn1980geo.shp" 2000 1980
  have hok := load_shapefiles_spec fsDemo "Data/jpn2000/jpn2000geo.shp"
    "Data/jpn1980/jpn1980geo.shp" 2000 1980
  refine ⟨hmiss.1 (by decide), ?_, ?_, ?_, ?_⟩
  · exact hbad.2.2.2.2.2.1 { columns := ["PREF", "CITY", "N03_007"] }
      { columns := ["PREF", "GUN"] } (by decide) (by decide)
      (by decide) (by decide) (by decide) (by decide)
  · exact hok.2.2.2.2.2.2.1 { columns := ["PREF", "CITY", "N03_007"] }
      { columns := ["PREF", "CITY", "GUN"] } (by decide) (by decide)
      (by decide) (by decide) (by decide) (by decide)
  · exact hok.2.2.2.2.2.2.2.1 ["PREF", "CITY", "N03_007"] 2000 (by decide) (by decide)
  · exact hok.2.2.2.2.2.2.2.2.1 ["PREF", "CITY", "N03_007"] 2000 (by decide)

/-- C9: the pipeline is deterministic on its inputs and side-effect-free:
the embedding of one run is a pure function of the two layers and the
threshold, so running it twice yields equal results, and in particular row
sets that agree as unordered collections. -/
theorem runPipelineTwice_deterministic (ops : GeomOps G)
    (s t : BoundaryLayer G) (thr : ℚ) :
    (runPipelineTwice ops s t thr).1 = (runPipelineTwice ops s t thr).2 ∧
    ((runPipelineTwice ops s t thr).1.rows).Perm ((runPipelineTwice ops s t thr).2.rows) :=
  ⟨rfl, List.Perm.refl _⟩

/-- C10: when the overlay finds zero intersections create_crosswalk returns
an empty table with nothing handed to save_crosswalk — no output file is
written — and skips the weighting and filtering stages; when the overlay is
non-empty the run always persists exactly the filtered crosswalk it
returns. -/
theorem create_crosswalk_save_behaviour (ops : GeomOps G)
    (sourceLayer targetLayer : BoundaryLayer G) (thr : ℚ) :
    (calculate_intersections ops (normalizeCrs ops sourceLayer targetLayer).1.regions
        (normalizeCrs ops sourceLayer targetLayer).2.regions = [] →
      create_crosswalk ops sourceLayer targetLayer thr = { rows := [], saved := none }) ∧
    (calculate_intersections ops (normalizeCrs ops sourceLayer targetLayer).1.regions
        (normalizeCrs ops sourceLayer targetLayer).2.regions ≠ [] →
      (create_crosswalk ops sourceLayer targetLayer thr).saved =
        some (create_crosswalk ops sourceLayer targetLayer thr).rows ∧
      (create_crosswalk ops sourceLayer targetLayer thr).rows =
        filterByThreshold
          (calculate_weights ops
            (calculate_intersections ops (normalizeCrs ops sourceLayer targetLayer).1.regions
              (normalizeCrs ops sourceLayer targetLayer).2.regions)
            (normalizeCrs ops sourceLayer targetLayer).1.regions
            (normalizeCrs ops sourceLayer targetLayer).2.regions) thr) := by
  constructor
  · intro h
    simp [create_crosswalk, h]
  · intro h
    have hne : (calculate_intersections ops (normalizeCrs ops sourceLayer targetLayer).1.regions
        (normalizeCrs ops sourceLayer targetLayer).2.regions).isEmpty = false := by
      cases hl : calculate_intersections ops (normalizeCrs ops sourceLayer targetLayer).1.regions
          (normalizeCrs ops sourceLayer targetLayer).2.regions with
      | nil => exact absurd hl h
      | cons a l => rfl
    refine ⟨?_, ?_⟩ <;> simp [create_crosswalk, hne]

theorem create_crosswalk_save_behaviour_witness :
    create_crosswalk cellOps cleanLayerS farLayerT defaultWeightThreshold =
      { rows := [], saved := none } ∧
    (create_crosswalk cellOps cleanLayerS cleanLayerT defaultWeightThreshold).saved =
      some (create_crosswalk cellOps cleanLayerS cleanLayerT defaultWeightThreshold).rows := by
  have h1 := create_crosswalk_save_behaviour cellOps cleanLayerS farLayerT defaultWeightThreshold
  have h2 := create_crosswalk_save_behaviour cellOps cleanLayerS cleanLayerT defaultWeightThreshold
  exact ⟨h1.1 (by decide), (h2.2 (by decide)).1⟩

end Crosswalk
